import Mathlib

/-!
Shallow embedding of the reaction-role bot in `src/main.py` (YUKABOT v0.0.1.5).

Modelling conventions:
* Python strings are Lean `String`s; `str.strip()` is `pyStrip` (whitespace
  is modelled by `Char.isWhitespace`, the ASCII subset Python also strips).
* The two `re` patterns of the source are hand-compiled into deterministic
  matchers: both character classes of `EMOJI_RE` exclude their terminating
  characters, so the greedy scans never need backtracking, and the optional
  `a` is forced by the following `:`.  `\d` is modelled as ASCII digits.
* Python integers are unbounded, so identifiers are `Nat`; Python decimal
  formatting `f"{n}"` is `Nat.repr`.
* `discord` library objects are modelled structurally: a guild carries its
  role list and member-id list, a raw-reaction payload carries the fields the
  handlers read, and a reaction emoji descriptor carries `id`/`name`/`animated`
  exactly as the handlers and `str()` use them.
* Exceptions become `Except`/`Option`; the exact exception messages of the
  source are reproduced byte for byte (the source file stores its Thai text
  in a mojibake encoding; the literals below reproduce the code points that
  are actually in the file, via escape sequences).
-/

namespace YukaBot

/-- Python `str.strip()`: drop whitespace from both ends. -/
def pyStrip (s : String) : String :=
  ⟨((s.data.dropWhile Char.isWhitespace).reverse.dropWhile Char.isWhitespace).reverse⟩

/-- Python `str.lower()` (ASCII case folding, applied per character). -/
def pyLower (s : String) : String := ⟨s.data.map Char.toLower⟩

/-- The character class `[A-Za-z0-9_~]` of `EMOJI_RE` (main.py line 41). -/
def isNameChar (c : Char) : Bool := c.isAlpha || c.isDigit || c = '_' || c = '~'

/-- The `<a?:` opening of `EMOJI_RE`: consume `<` then an optional `a`
followed by the mandatory `:`. -/
def emojiReOpen : List Char → Option (List Char)
  | c1 :: c2 :: r =>
    if c1 = '<' then
      if c2 = ':' then some r
      else if c2 = 'a' then
        match r with
        | c3 :: r2 => if c3 = ':' then some r2 else none
        | [] => none
      else none
    else none
  | _ => none

/-- Anchored match of `EMOJI_RE = ^<a?:[A-Za-z0-9_~]+:(\d+)>$` (main.py
line 41), returning the captured digit group. -/
def emojiReMatch (s : String) : Option String :=
  match emojiReOpen s.data with
  | none => none
  | some r =>
    let nm := r.takeWhile isNameChar
    if nm = [] then none
    else
      match r.drop nm.length with
      | c :: r2 =>
        if c = ':' then
          let ds := r2.takeWhile Char.isDigit
          if ds = [] then none
          else
            match r2.drop ds.length with
            | [c2] => if c2 = '>' then some ⟨ds⟩ else none
            | _ => none
        else none
      | [] => none

/-- `normalize_emoji_key` (main.py lines 44-54). -/
def normalize_emoji_key (s : String) : String :=
  let t := pyStrip s
  match emojiReMatch t with
  | some ds => "e:" ++ ds
  | none => t

/-- A reaction-event emoji descriptor (`discord.PartialEmoji`): an optional
custom-emoji numeric id, the emoji name (for a unicode emoji, the literal
glyph), and the animated flag. -/
structure PayloadEmoji where
  id : Option Nat
  name : String
  animated : Bool
deriving DecidableEq

/-- `str()` of a reaction-event emoji descriptor: the unicode glyph when
there is no custom id, else the `<a:name:id>` / `<:name:id>` textual form. -/
def payloadEmojiStr (e : PayloadEmoji) : String :=
  match e.id with
  | none => e.name
  | some i => (if e.animated then "<a:" else "<:") ++ e.name ++ ":" ++ Nat.repr i ++ ">"

/-- `emoji_key_from_payload` (main.py lines 57-61); `if payload_emoji.id:`
is Python truthiness, so an id of `0` falls through to the `str()` branch. -/
def emoji_key_from_payload (e : PayloadEmoji) : String :=
  match e.id with
  | some i => if i = 0 then payloadEmojiStr e else "e:" ++ Nat.repr i
  | none => payloadEmojiStr e

/-! ### Decimal representations are nonempty digit strings -/

theorem digitChar_isDigit {m : Nat} (h : m < 10) : (Nat.digitChar m).isDigit = true := by
  interval_cases m <;> decide

theorem toDigitsCore_digits (fuel n : Nat) (acc : List Char)
    (hacc : ∀ c ∈ acc, c.isDigit = true) :
    ∀ c ∈ Nat.toDigitsCore 10 fuel n acc, c.isDigit = true := by
  induction fuel generalizing n acc with
  | zero => simpa [Nat.toDigitsCore] using hacc
  | succ fuel ih =>
    simp only [Nat.toDigitsCore]
    split
    · intro c hc
      rcases List.mem_cons.mp hc with h | h
      · subst h; exact digitChar_isDigit (Nat.mod_lt _ (by norm_num))
      · exact hacc c h
    · exact ih _ _ (by
        intro c hc
        rcases List.mem_cons.mp hc with h | h
        · subst h; exact digitChar_isDigit (Nat.mod_lt _ (by norm_num))
        · exact hacc c h)

theorem toDigitsCore_ne_nil (fuel n : Nat) (acc : List Char) (hacc : acc ≠ [] ∨ fuel ≠ 0) :
    Nat.toDigitsCore 10 fuel n acc ≠ [] := by
  induction fuel generalizing n acc with
  | zero =>
    rcases hacc with h | h
    · simpa [Nat.toDigitsCore] using h
    · exact absurd rfl h
  | succ fuel ih =>
    simp only [Nat.toDigitsCore]
    split
    · simp
    · exact ih _ _ (Or.inl (by simp))

theorem repr_data_digits (n : Nat) : ∀ c ∈ (Nat.repr n).data, c.isDigit = true := by
  intro c hc
  have : (Nat.repr n).data = Nat.toDigitsCore 10 (n + 1) n [] := rfl
  rw [this] at hc
  exact toDigitsCore_digits _ _ _ (by simp) c hc

theorem repr_data_ne_nil (n : Nat) : (Nat.repr n).data ≠ [] := by
  have : (Nat.repr n).data = Nat.toDigitsCore 10 (n + 1) n [] := rfl
  rw [this]
  exact toDigitsCore_ne_nil _ _ _ (Or.inr (by simp))

/-! ### Generic scanning lemmas -/

theorem data_append (s t : String) : (s ++ t).data = s.data ++ t.data := rfl

theorem takeWhile_all_stop (p : Char → Bool) (xs : List Char) (y : Char) (ys : List Char)
    (hxs : ∀ x ∈ xs, p x = true) (hy : p y = false) :
    (xs ++ y :: ys).takeWhile p = xs := by
  induction xs with
  | nil => simp [List.takeWhile_cons, hy]
  | cons a t ih =>
    have ha := hxs a (by simp)
    simp [List.takeWhile_cons, ha]
    exact ih fun x hx => hxs x (by simp [hx])

theorem dropWhile_eq_self_of_all (p : Char → Bool) (l : List Char)
    (h : ∀ c ∈ l, p c = false) : l.dropWhile p = l := by
  cases l with
  | nil => rfl
  | cons a t => simp [List.dropWhile_cons, h a (by simp)]

theorem pyStrip_eq_self {s : String} (h : ∀ c ∈ s.data, c.isWhitespace = false) :
    pyStrip s = s := by
  unfold pyStrip
  rw [dropWhile_eq_self_of_all _ _ h,
      dropWhile_eq_self_of_all _ _ (fun c hc => h c (List.mem_reverse.mp hc)),
      List.reverse_reverse]

theorem isNameChar_not_ws (c : Char) (h : isNameChar c = true) : c.isWhitespace = false := by
  cases hw : c.isWhitespace
  · rfl
  · exfalso
    have : ((c = ' ' ∨ c = '\t') ∨ c = '\r') ∨ c = '\n' := by
      simpa [Char.isWhitespace] using hw
    rcases this with ((rfl | rfl) | rfl) | rfl <;> simp [isNameChar] at h

theorem isDigit_not_ws (c : Char) (h : c.isDigit = true) : c.isWhitespace = false := by
  cases hw : c.isWhitespace
  · rfl
  · exfalso
    have : ((c = ' ' ∨ c = '\t') ∨ c = '\r') ∨ c = '\n' := by
      simpa [Char.isWhitespace] using hw
    rcases this with ((rfl | rfl) | rfl) | rfl <;> simp [Char.isDigit] at h

/-! ### The codec agreement (claim C1) -/

theorem emojiReMatch_custom (anim : Bool) (nm ds : String)
    (hnm : nm.data ≠ []) (hnmc : ∀ c ∈ nm.data, isNameChar c = true)
    (hds : ds.data ≠ []) (hdsc : ∀ c ∈ ds.data, c.isDigit = true) :
    emojiReMatch ((if anim then "<a:" else "<:") ++ nm ++ ":" ++ ds ++ ">") = some ds := by
  have hopen : emojiReOpen (((if anim then "<a:" else "<:") ++ nm ++ ":" ++ ds ++ ">").data)
      = some (nm.data ++ ':' :: (ds.data ++ ['>'])) := by
    cases anim <;>
      simp [data_append, emojiReOpen, List.append_assoc]
  have htake : (nm.data ++ ':' :: (ds.data ++ ['>'])).takeWhile isNameChar = nm.data :=
    takeWhile_all_stop _ _ _ _ hnmc (by decide)
  have hdrop : (nm.data ++ ':' :: (ds.data ++ ['>'])).drop nm.data.length
      = ':' :: (ds.data ++ ['>']) := List.drop_left _ _
  have htake2 : (ds.data ++ ['>']).takeWhile Char.isDigit = ds.data := by
    have : ds.data ++ ['>'] = ds.data ++ '>' :: [] := rfl
    rw [this]
    exact takeWhile_all_stop _ _ _ _ hdsc (by decide)
  have hdrop2 : (ds.data ++ ['>']).drop ds.data.length = ['>'] := List.drop_left _ _
  simp only [emojiReMatch, hopen]
  simp only [htake, hdrop, htake2, hdrop2]
  simp [hnm, hds]

/-- C1: a custom emoji given as the registration-time textual form
`<a?:name:ID>` and as an event-time descriptor with the same numeric ID, and
an identical unicode literal given in both contexts, normalize to the same
`EmojiKey` through `normalize_emoji_key` and `emoji_key_from_payload`. -/
theorem c1_normalize_text_event_agree :
    (∀ (anim : Bool) (nm : String) (i : Nat),
      nm.data ≠ [] → (∀ c ∈ nm.data, isNameChar c = true) → i ≠ 0 →
      normalize_emoji_key ((if anim then "<a:" else "<:") ++ nm ++ ":" ++ Nat.repr i ++ ">")
        = emoji_key_from_payload ⟨some i, nm, anim⟩)
    ∧ (∀ u : String, pyStrip u = u → emojiReMatch u = none →
      normalize_emoji_key u = emoji_key_from_payload ⟨none, u, false⟩) := by
  constructor
  · intro anim nm i hnm hnmc hi
    have hstrip : pyStrip ((if anim then "<a:" else "<:") ++ nm ++ ":" ++ Nat.repr i ++ ">")
        = (if anim then "<a:" else "<:") ++ nm ++ ":" ++ Nat.repr i ++ ">" := by
      apply pyStrip_eq_self
      intro c hc
      simp only [data_append] at hc
      rcases List.mem_append.mp hc with hc | hc
      · rcases List.mem_append.mp hc with hc | hc
        · rcases List.mem_append.mp hc with hc | hc
          · rcases List.mem_append.mp hc with hc | hc
            · cases anim
              · have h2 : c = '<' ∨ c = ':' := by simpa using hc
                rcases h2 with rfl | rfl <;> rfl
              · have h2 : c = '<' ∨ c = 'a' ∨ c = ':' := by simpa using hc
                rcases h2 with rfl | rfl | rfl <;> rfl
            · exact isNameChar_not_ws c (hnmc c hc)
          · simp only [List.mem_singleton] at hc; subst hc; rfl
        · exact isDigit_not_ws c (repr_data_digits i c hc)
      · simp only [List.mem_singleton] at hc; subst hc; rfl
    have hmatch := emojiReMatch_custom anim nm (Nat.repr i) hnm hnmc
      (repr_data_ne_nil i) (repr_data_digits i)
    rw [normalize_emoji_key, hstrip, hmatch, emoji_key_from_payload]
    simp [hi]
  · intro u h1 h2
    rw [normalize_emoji_key, h1, h2, emoji_key_from_payload, payloadEmojiStr]

theorem c1_normalize_text_event_agree_witness :
    normalize_emoji_key "<a:smile:123>" = emoji_key_from_payload ⟨some 123, "smile", true⟩
    ∧ normalize_emoji_key "😀" = emoji_key_from_payload ⟨none, "😀", false⟩ := by
  constructor
  · have h := c1_normalize_text_event_agree.1 true "smile" 123 (by decide) (by decide)
      (by decide)
    have he : ((if true then "<a:" else "<:") ++ "smile" ++ ":" ++ Nat.repr 123 ++ ">")
        = "<a:smile:123>" := by decide
    rwa [he] at h
  · exact c1_normalize_text_event_agree.2 "😀" (by decide) (by decide)

/-! ### Pair parser (main.py lines 64-92) -/

/-- The parsed role reference: a resolved integer id or an unresolved name
kept for later lookup (the Python code stores either an `int` or the raw
string in the same slot). -/
inductive RoleRef where
  | id (n : Nat)
  | name (s : String)
deriving DecidableEq

/-- Python `int()` on a decimal numeral. -/
def digitsToNat (cs : List Char) : Nat := cs.foldl (fun a c => 10 * a + (c.toNat - 48)) 0

/-- Python `str.isdigit()` (ASCII numerals). -/
def pyIsDigit (s : String) : Bool := !s.data.isEmpty && s.data.all Char.isDigit

/-- One attempt of `re.search(r"<@&(?P<id>\d+)>", role_part)` at the current
position: `<@&`, a maximal nonempty digit run, then `>`.  The digit class
excludes `>`, so the greedy run needs no backtracking. -/
def mentionMatchAt : List Char → Option String
  | c1 :: c2 :: c3 :: r =>
    if c1 = '<' ∧ c2 = '@' ∧ c3 = '&' then
      let ds := r.takeWhile Char.isDigit
      if ds = [] then none
      else
        match r.drop ds.length with
        | c4 :: _ => if c4 = '>' then some ⟨ds⟩ else none
        | [] => none
    else none
  | _ => none

/-- `re.search` scans left to right: the leftmost match wins. -/
def mentionSearchList : List Char → Option String
  | [] => none
  | c :: cs =>
    match mentionMatchAt (c :: cs) with
    | some ds => some ds
    | none => mentionSearchList cs

def mentionSearch (s : String) : Option String := mentionSearchList s.data

/-- Role-reference extraction inside `parse_pairs` (main.py lines 78-88):
a mention anywhere in the text wins, then a purely numeric id, else the text
is kept as an unresolved name. -/
def parseRoleRef (role_part : String) : RoleRef :=
  match mentionSearch role_part with
  | some ds => .id (digitsToNat ds.data)
  | none =>
    if pyIsDigit role_part then .id (digitsToNat role_part.data) else .name role_part

/-- Python `item.split("=", 1)` under the assumption that `=` occurs:
the text before the first `=` and everything after it. -/
def splitEq1 (item : String) : String × String :=
  (⟨item.data.takeWhile (fun c => c != '=')⟩,
   ⟨item.data.drop ((item.data.takeWhile (fun c => c != '=')).length + 1)⟩)

/-- The `ValueError` text of main.py line 76 (the literal code points stored
in the source file, around the offending item). -/
def malformedMsg (item : String) : String :=
  "‡∏£‡∏π‡∏õ‡πÅ‡∏ö‡∏ö‡πÑ‡∏°‡πà‡∏ñ‡∏π‡∏Å‡∏ï‡πâ‡∏≠‡∏á: \u0027"
  ++ item ++
  "\u0027 (‡∏Ñ‡∏ß‡∏£‡πÄ‡∏õ‡πá‡∏ô EMOJI=ROLE)"

/-- Split a character list at every separator character, keeping empty
segments, as `re.split` does on single-character alternatives. -/
def splitCharsOn (p : Char → Bool) (cs : List Char) : List (List Char) :=
  cs.foldr
    (fun c acc =>
      match acc with
      | [] => if p c then [[], []] else [[c]]
      | a :: rest => if p c then [] :: a :: rest else (c :: a) :: rest)
    [[]]

/-- `re.split(r",|\n", pairs_str)`. -/
def splitPairsBlob (s : String) : List String :=
  (splitCharsOn (fun c => c = ',' || c = '\n') s.data).map fun l => ⟨l⟩

/-- The entry loop of `parse_pairs`: blank entries are skipped, an entry
without `=` raises, otherwise the entry is split at the first `=`, both
halves trimmed, and the pair and its label are appended in order. -/
def parsePairsList :
    List String → Except String (List (String × RoleRef × String) × List (String × String))
  | [] => .ok ([], [])
  | raw :: rest =>
    let item := pyStrip raw
    if item = "" then parsePairsList rest
    else if item.data.contains '=' = false then .error (malformedMsg item)
    else
      let ep := pyStrip (splitEq1 item).1
      let rp := pyStrip (splitEq1 item).2
      match parsePairsList rest with
      | .error e => .error e
      | .ok (ps, ls) =>
        .ok ((normalize_emoji_key ep, parseRoleRef rp, ep) :: ps, (ep, rp) :: ls)

/-- `parse_pairs` (main.py lines 64-92). -/
def parse_pairs (pairs_str : String) :
    Except String (List (String × RoleRef × String) × List (String × String)) :=
  parsePairsList (splitPairsBlob pairs_str)

/-! ### Role resolution (main.py lines 95-116) -/

structure Role where
  id : Nat
  name : String
deriving DecidableEq

/-- The `ValueError` text of main.py line 114, around the unresolved name. -/
def unknownRoleMsg (nm : String) : String :=
  "‡πÑ‡∏°‡πà‡∏û‡∏ö‡∏¢‡∏®/Role: \u0027"
  ++ nm ++
  "\u0027 ‡πÉ‡∏ô‡πÄ‡∏ã‡∏¥‡∏£‡πå‡∏ü‡πÄ‡∏ß‡∏≠‡∏£‡πå‡∏ô‡∏µ‡πâ"

/-- One step of `resolve_role_ids`: ints pass through; a name is matched
exactly first (`discord.utils.get`), then case-insensitively
(`discord.utils.find`), both taking the first role in guild order. -/
def resolveRoleRef (roles : List Role) : RoleRef → Except String Nat
  | .id n => .ok n
  | .name nm =>
    match roles.find? (fun r => r.name == nm) with
    | some r => .ok r.id
    | none =>
      match roles.find? (fun r => pyLower r.name == pyLower nm) with
      | some r => .ok r.id
      | none => .error (unknownRoleMsg nm)

/-- `resolve_role_ids` (main.py lines 95-116), first failure raises. -/
def resolve_role_ids (roles : List Role) :
    List (String × RoleRef × String) → Except String (List (String × Nat × String))
  | [] => .ok []
  | (ek, rr, er) :: rest =>
    match resolveRoleRef roles rr with
    | .error e => .error e
    | .ok rid =>
      match resolve_role_ids roles rest with
      | .error e => .error e
      | .ok rs => .ok ((ek, rid, er) :: rs)

/-! ### Permission preflight (main.py lines 119-131) -/

structure Perms where
  manage_roles : Bool
  add_reactions : Bool
  read_message_history : Bool
  send_messages : Bool
  embed_links : Bool
  read_messages : Bool
deriving DecidableEq

def neededPerms (p : Perms) : List (Bool × String) :=
  [(p.manage_roles, "Manage Roles"), (p.add_reactions, "Add Reactions"),
   (p.read_message_history, "Read Message History"), (p.send_messages, "Send Messages"),
   (p.embed_links, "Embed Links"), (p.read_messages, "View Channel")]

def missingPerms (p : Perms) : List String :=
  (neededPerms p).filterMap fun x => if x.1 then none else some x.2

/-- The `PermissionError` text of main.py line 131: a fixed head followed by
the missing capability names joined with `", "`. -/
def missingPermsMsg (missing : List String) : String :=
  "‡∏ö‡∏≠‡∏ó‡∏Ç‡∏≤‡∏î‡∏™‡∏¥‡∏ó‡∏ò‡∏¥‡πå: "
  ++ String.intercalate ", " missing

/-- `ensure_react_permissions` (main.py lines 119-131). -/
def ensure_react_permissions (p : Perms) : Except String Unit :=
  if missingPerms p = [] then .ok () else .error (missingPermsMsg (missingPerms p))

/-! ### Python dict as an insertion-ordered association list -/

/-- `d[k] = v` on a Python dict: overwrite in place if the key exists, else
append at the end. -/
def dinsert {α : Type} (m : List (String × α)) (k : String) (v : α) : List (String × α) :=
  if m.any (fun kv => kv.1 == k) then m.map (fun kv => if kv.1 == k then (k, v) else kv)
  else m ++ [(k, v)]

/-- `d.get(k)` on a Python dict. -/
def dget {α : Type} (m : List (String × α)) (k : String) : Option α :=
  (m.find? (fun kv => kv.1 == k)).map (·.2)

/-- `{ek: rid for ek, rid, _ in items}` (main.py line 250). -/
def dictOfItems (items : List (String × Nat × String)) : List (String × Nat) :=
  items.foldl (fun m it => dinsert m it.1 it.2.1) []

/-! ### Persisted store (main.py lines 25-38) -/

structure Record where
  emoji_map : List (String × Nat)
  guild_id : Nat
  channel_id : Nat
deriving DecidableEq

abbrev Store := List (String × Record)

/-- `load_data` (main.py lines 25-32): absent file → empty map; present
contents whose parse fails → empty map.  `json.load` is external to the
repository and abstracted as a parse function returning `none` exactly when
the source would take the `except` branch. -/
def load_data (file : Option String) (jsonParse : String → Option Store) : Store :=
  match file with
  | none => []
  | some contents =>
    match jsonParse contents with
    | some d => d
    | none => []

/-! ### Guild-side lookups (discord collaborators) -/

structure Guild where
  id : Nat
  roles : List Role
  members : List Nat
deriving DecidableEq

def get_role (g : Guild) (rid : Nat) : Option Role := g.roles.find? (fun r => r.id == rid)

def get_member (g : Guild) (uid : Nat) : Option Nat :=
  if g.members.contains uid then some uid else none

/-! ### createrole (main.py lines 215-270) -/

/-- `role.mention`. -/
def roleMention (r : Role) : String := "<@&" ++ Nat.repr r.id ++ ">"

/-- The `ValueError` text of main.py line 240. -/
def badRoleAfterCheckMsg : String :=
  "‡∏û‡∏ö role ‡∏ó‡∏µ‡πà‡πÑ‡∏°‡πà‡∏ñ‡∏π‡∏Å‡∏ï‡πâ‡∏≠‡∏á‡∏´‡∏•‡∏±‡∏á‡∏Å‡∏≤‡∏£‡∏ï‡∏£‡∏ß‡∏à‡∏™‡∏≠‡∏ö"

/-- The separator of main.py line 241 (`"  →  "` as stored in the file). -/
def arrowSep : String := "  ‚Üí  "

/-- The embed-line loop of main.py lines 236-241: one line per resolved
item, in order, raising if `get_role` fails for some id. -/
def buildLines (g : Guild) : List (String × Nat × String) → Except String (List String)
  | [] => .ok []
  | (_, rid, er) :: rest =>
    match get_role g rid with
    | none => .error badRoleAfterCheckMsg
    | some r =>
      match buildLines g rest with
      | .error e => .error e
      | .ok ls => .ok ((er ++ arrowSep ++ roleMention r) :: ls)

inductive PyError where
  | permissionError (msg : String)
  | valueError (msg : String)
deriving DecidableEq

/-- The observable outcome of one `createrole` invocation: the persisted
store after the call, the bodies (line lists) of messages posted to the
target channel, the emoji keys whose reactions were attempted in order
(`add_reactions_safely` over `emoji_map.keys()`), and the surfaced result. -/
structure CreateRoleOut where
  store : Store
  posted : List (List String)
  reactionsAttempted : List String
  result : Except PyError Nat

/-- `createrole` (main.py lines 215-270): permission preflight, parse,
resolve, render, post, persist at `str(msg.id)`, save, attach reactions.
Validation errors abort before the channel message and before any store
mutation; `freshMsgId` is the id the platform assigns to the posted
message. -/
def createrole (perms : Perms) (g : Guild) (channelId : Nat) (pairs : String)
    (store : Store) (freshMsgId : Nat) : CreateRoleOut :=
  match ensure_react_permissions perms with
  | .error m => ⟨store, [], [], .error (.permissionError m)⟩
  | .ok _ =>
    match parse_pairs pairs with
    | .error m => ⟨store, [], [], .error (.valueError m)⟩
    | .ok (raw_items, _labels) =>
      match resolve_role_ids g.roles raw_items with
      | .error m => ⟨store, [], [], .error (.valueError m)⟩
      | .ok items =>
        match buildLines g items with
        | .error m => ⟨store, [], [], .error (.valueError m)⟩
        | .ok ls =>
          let emoji_map := dictOfItems items
          let record : Record := ⟨emoji_map, g.id, channelId⟩
          ⟨dinsert store (Nat.repr freshMsgId) record, [ls],
            emoji_map.map (·.1), .ok freshMsgId⟩

/-! ### Reaction handlers (main.py lines 163-204) -/

structure Payload where
  message_id : Nat
  user_id : Nat
  guild_id : Nat
  emoji : PayloadEmoji
deriving DecidableEq

inductive RoleMutation where
  | add (userId roleId : Nat)
  | remove (userId roleId : Nat)
deriving DecidableEq

/-- `on_raw_reaction_add` (main.py lines 163-183), returning the list of
role mutations the handler performs (`member.add_roles` calls).  The guard
`if not role_id:` is Python truthiness, so a bound id of `0` also returns
early. -/
def on_raw_reaction_add (botUserId : Nat) (getGuild : Nat → Option Guild)
    (store : Store) (p : Payload) : List RoleMutation :=
  if p.user_id = botUserId then []
  else
    match dget store (Nat.repr p.message_id) with
    | none => []
    | some data =>
      match dget data.emoji_map (emoji_key_from_payload p.emoji) with
      | none => []
      | some role_id =>
        if role_id = 0 then []
        else
          match getGuild p.guild_id with
          | none => []
          | some g =>
            match get_member g p.user_id, get_role g role_id with
            | some m, some r => [.add m r.id]
            | _, _ => []

/-- `on_raw_reaction_remove` (main.py lines 186-204): symmetric, with no
bot-self check. -/
def on_raw_reaction_remove (getGuild : Nat → Option Guild)
    (store : Store) (p : Payload) : List RoleMutation :=
  match dget store (Nat.repr p.message_id) with
  | none => []
  | some data =>
    match dget data.emoji_map (emoji_key_from_payload p.emoji) with
    | none => []
    | some role_id =>
      if role_id = 0 then []
      else
        match getGuild p.guild_id with
        | none => []
        | some g =>
          match get_member g p.user_id, get_role g role_id with
          | some m, some r => [.remove m r.id]
          | _, _ => []

/-! ### Claim C8: load_data defaults -/

/-- C8: `load_data` returns the empty map when the backing file is absent,
and when the file exists but its contents fail to parse as JSON; being a
total function, it returns normally in both cases rather than raising. -/
theorem c8_load_data_defaults :
    ∀ jsonParse : String → Option Store,
      load_data none jsonParse = []
      ∧ ∀ s : String, jsonParse s = none → load_data (some s) jsonParse = [] := by
  intro jp
  exact ⟨rfl, fun s h => by simp [load_data, h]⟩

theorem c8_load_data_defaults_witness :
    load_data none (fun _ => none) = []
    ∧ load_data (some "not json") (fun _ => none) = [] :=
  ⟨(c8_load_data_defaults fun _ => none).1,
   (c8_load_data_defaults fun _ => none).2 "not json" rfl⟩

/-! ### Claim C2: unmanaged message / unbound emoji means no mutation -/

/-- C2: a reaction-added or reaction-removed event whose message id has no
record in the store, or whose computed emoji key is absent from the stored
record's `emoji_map`, makes both handlers return with zero role mutations. -/
theorem c2_unmanaged_or_unbound_no_mutation :
    ∀ (botUserId : Nat) (getGuild : Nat → Option Guild) (store : Store) (p : Payload),
      (dget store (Nat.repr p.message_id) = none
        ∨ ∃ d, dget store (Nat.repr p.message_id) = some d
            ∧ dget d.emoji_map (emoji_key_from_payload p.emoji) = none) →
      on_raw_reaction_add botUserId getGuild store p = []
      ∧ on_raw_reaction_remove getGuild store p = [] := by
  intro bid gg store p h
  rcases h with h | ⟨d, hd, hk⟩
  · exact ⟨by simp [on_raw_reaction_add, h], by simp [on_raw_reaction_remove, h]⟩
  · exact ⟨by simp [on_raw_reaction_add, hd, hk], by simp [on_raw_reaction_remove, hd, hk]⟩

theorem c2_unmanaged_or_unbound_no_mutation_witness :
    on_raw_reaction_add 99 (fun _ => none) [] ⟨1, 5, 7, ⟨none, "😀", false⟩⟩ = []
    ∧ on_raw_reaction_remove (fun _ => none) [] ⟨1, 5, 7, ⟨none, "😀", false⟩⟩ = [] :=
  c2_unmanaged_or_unbound_no_mutation 99 (fun _ => none) [] ⟨1, 5, 7, ⟨none, "😀", false⟩⟩
    (Or.inl rfl)

/-! ### Claim C3: permission preflight aborts with no side effects -/

/-- C3: when any of the six required channel capabilities is missing,
`createrole` fails with a `PermissionError` whose message is the fixed head
followed by exactly the names of the missing capabilities (in preflight
order), posts no message, attaches no reactions, and leaves the store
untouched. -/
theorem c3_missing_permission_aborts :
    ∀ (perms : Perms) (g : Guild) (channelId : Nat) (pairs : String) (store : Store)
      (freshMsgId : Nat),
      missingPerms perms ≠ [] →
      (createrole perms g channelId pairs store freshMsgId).result
          = .error (.permissionError (missingPermsMsg (missingPerms perms)))
      ∧ (createrole perms g channelId pairs store freshMsgId).posted = []
      ∧ (createrole perms g channelId pairs store freshMsgId).store = store
      ∧ (createrole perms g channelId pairs store freshMsgId).reactionsAttempted = []
      ∧ missingPerms perms
          = (if perms.manage_roles then [] else ["Manage Roles"])
            ++ (if perms.add_reactions then [] else ["Add Reactions"])
            ++ (if perms.read_message_history then [] else ["Read Message History"])
            ++ (if perms.send_messages then [] else ["Send Messages"])
            ++ (if perms.embed_links then [] else ["Embed Links"])
            ++ (if perms.read_messages then [] else ["View Channel"]) := by
  intro perms g ch pairs store mid h
  have he : ensure_react_permissions perms
      = .error (missingPermsMsg (missingPerms perms)) := by
    unfold ensure_react_permissions
    simp [h]
  refine ⟨by simp [createrole, he], by simp [createrole, he], by simp [createrole, he],
    by simp [createrole, he], ?_⟩
  rcases perms with ⟨a, b, c, d, e, f⟩
  cases a <;> cases b <;> cases c <;> cases d <;> cases e <;> cases f <;> rfl

theorem c3_missing_permission_aborts_witness :
    (createrole ⟨false, true, true, true, true, true⟩ ⟨7, [], []⟩ 3 "😀=10" [] 5).result
        = .error (.permissionError (missingPermsMsg (missingPerms
            ⟨false, true, true, true, true, true⟩)))
    ∧ (createrole ⟨false, true, true, true, true, true⟩ ⟨7, [], []⟩ 3 "😀=10" [] 5).posted = []
    ∧ (createrole ⟨false, true, true, true, true, true⟩ ⟨7, [], []⟩ 3 "😀=10" [] 5).store = []
    ∧ (createrole ⟨false, true, true, true, true, true⟩ ⟨7, [], []⟩ 3 "😀=10" []
        5).reactionsAttempted = []
    ∧ missingPerms ⟨false, true, true, true, true, true⟩ = ["Manage Roles"] :=
  have h := c3_missing_permission_aborts ⟨false, true, true, true, true, true⟩
    ⟨7, [], []⟩ 3 "😀=10" [] 5 (by decide)
  ⟨h.1, h.2.1, h.2.2.1, h.2.2.2.1, h.2.2.2.2⟩

/-! ### Claim C7: role-part resolution priority -/

/-- `Modelled from the spec` wording of §4.2 step 3 as one priority chain,
for comparison with the code path, which splits the same work between
`parse_pairs` and `resolve_role_ids`. -/
def specResolveRolePart (roles : List Role) (role_part : String) : Except String Nat :=
  match mentionSearch role_part with
  | some ds => .ok (digitsToNat ds.data)
  | none =>
    if pyIsDigit role_part then .ok (digitsToNat role_part.data)
    else
      match roles.find? (fun r => r.name == role_part) with
      | some r => .ok r.id
      | none =>
        match roles.find? (fun r => pyLower r.name == pyLower role_part) with
        | some r => .ok r.id
        | none => .error (unknownRoleMsg role_part)

/-- C7: the code's two-stage role resolution (mention token, else numeric
text, kept as a name and later matched exactly then case-insensitively, else
an unknown-role failure naming the text) coincides with the spec's single
priority chain on every role-part and guild role list. -/
theorem c7_resolution_priority :
    ∀ (roles : List Role) (role_part : String),
      resolveRoleRef roles (parseRoleRef role_part) = specResolveRolePart roles role_part := by
  intro roles rp
  unfold parseRoleRef specResolveRolePart
  cases h : mentionSearch rp
  · cases hd : pyIsDigit rp <;> simp [resolveRoleRef, hd]
  · simp [resolveRoleRef]

/-! ### Claim C10: mention detection matches anywhere in the role-part -/

theorem mentionMatchAt_ne_lt {c : Char} (l : List Char) (hc : c ≠ '<') :
    mentionMatchAt (c :: l) = none := by
  match l with
  | [] => rfl
  | [_] => rfl
  | c2 :: c3 :: r => simp [mentionMatchAt, hc]

theorem mentionMatchAt_token (ds post : List Char)
    (hne : ds ≠ []) (hdig : ∀ c ∈ ds, c.isDigit = true) :
    mentionMatchAt ('<' :: '@' :: '&' :: (ds ++ '>' :: post)) = some ⟨ds⟩ := by
  have ht : (ds ++ '>' :: post).takeWhile Char.isDigit = ds :=
    takeWhile_all_stop _ _ _ _ hdig (by decide)
  have hd : (ds ++ '>' :: post).drop ds.length = '>' :: post := List.drop_left _ _
  simp [mentionMatchAt, ht, hd, hne]

theorem mentionSearchList_skip (l rest : List Char) (h : ∀ c ∈ l, c ≠ '<') :
    mentionSearchList (l ++ rest) = mentionSearchList rest := by
  induction l with
  | nil => rfl
  | cons c t ih =>
    have hm : mentionMatchAt (c :: (t ++ rest)) = none :=
      mentionMatchAt_ne_lt _ (h c (by simp))
    simp only [List.cons_append, mentionSearchList, List.append_eq, hm]
    exact ih fun x hx => h x (by simp [hx])

/-- C10: a mention token `<@&digits>` is recognised anywhere inside the
role-part, not only as the whole string: with arbitrary text around the
token (none of whose leading characters opens another candidate match), the
parser resolves the entry to exactly those digits. -/
theorem c10_mention_recognised_anywhere :
    ∀ (pre ds post : String),
      ds.data ≠ [] → (∀ c ∈ ds.data, c.isDigit = true) → (∀ c ∈ pre.data, c ≠ '<') →
      parseRoleRef (pre ++ "<@&" ++ ds ++ ">" ++ post) = .id (digitsToNat ds.data) := by
  intro pre ds post hne hdig hpre
  have hdata : (pre ++ "<@&" ++ ds ++ ">" ++ post).data
      = pre.data ++ ('<' :: '@' :: '&' :: (ds.data ++ '>' :: post.data)) := by
    simp [data_append, List.append_assoc,
      show ("<@&" : String).data = ['<', '@', '&'] from rfl,
      show (">" : String).data = ['>'] from rfl]
  have hsearch : mentionSearch (pre ++ "<@&" ++ ds ++ ">" ++ post) = some ⟨ds.data⟩ := by
    unfold mentionSearch
    rw [hdata, mentionSearchList_skip _ _ hpre]
    simp [mentionSearchList, mentionMatchAt_token ds.data post.data hne hdig]
  unfold parseRoleRef
  rw [hsearch]

theorem c10_mention_recognised_anywhere_witness :
    parseRoleRef "abc <@&42> xyz" = .id 42 := by
  have h := c10_mention_recognised_anywhere "abc " "42" " xyz"
    (by decide) (by decide) (by decide)
  have he : ("abc " ++ "<@&" ++ "42" ++ ">" ++ " xyz") = "abc <@&42> xyz" := by decide
  have hn : digitsToNat ("42" : String).data = 42 := by decide
  rw [he, hn] at h
  exact h

/-! ### Claim C5: the `=` separator -/

/-- C5 counterexample: an entry with more than one `=` is NOT rejected as
malformed — `item.split("=", 1)` splits at the first `=` and the parser
accepts the entry, keeping the remainder (including the extra `=`) inside
the role part. -/
theorem c5_multiple_eq_accepted_counterexample :
    parse_pairs "😀=a=b" = .ok ([("😀", RoleRef.name "a=b", "😀")], [("😀", "a=b")]) := rfl

/-- C5 (amended): a non-empty trimmed entry without `=` fails with the
malformed-pair error naming that entry; an entry with at least one `=`
(also more than one) is accepted and split at the first `=`; and a parse
failure aborts `createrole` with no message posted, no reactions attached,
and the store untouched. -/
theorem c5_eq_separator_amended :
    (∀ (raw : String) (rest : List String),
      pyStrip raw ≠ "" → '=' ∉ (pyStrip raw).data →
      parsePairsList (raw :: rest) = .error (malformedMsg (pyStrip raw)))
    ∧ (∀ (raw : String) (rest : List String) (ps : List (String × RoleRef × String))
        (ls : List (String × String)),
      pyStrip raw ≠ "" → '=' ∈ (pyStrip raw).data →
      parsePairsList rest = .ok (ps, ls) →
      parsePairsList (raw :: rest)
        = .ok ((normalize_emoji_key (pyStrip (splitEq1 (pyStrip raw)).1),
                parseRoleRef (pyStrip (splitEq1 (pyStrip raw)).2),
                pyStrip (splitEq1 (pyStrip raw)).1) :: ps,
               (pyStrip (splitEq1 (pyStrip raw)).1,
                pyStrip (splitEq1 (pyStrip raw)).2) :: ls))
    ∧ (∀ (perms : Perms) (g : Guild) (channelId : Nat) (pairs : String) (store : Store)
        (freshMsgId : Nat) (m : String),
      parse_pairs pairs = .error m → missingPerms perms = [] →
      createrole perms g channelId pairs store freshMsgId
        = ⟨store, [], [], .error (.valueError m)⟩) := by
  refine ⟨?_, ?_, ?_⟩
  · intro raw rest h1 h2
    simp [parsePairsList, h1, h2]
  · intro raw rest ps ls h1 h2 h3
    simp [parsePairsList, h1, h2, h3]
  · intro perms g ch pairs store mid m hp hmiss
    have he : ensure_react_permissions perms = .ok () := by
      simp [ensure_react_permissions, hmiss]
    simp [createrole, he, hp]

theorem c5_eq_separator_amended_witness :
    parsePairsList ["😀 Role1"] = .error (malformedMsg "😀 Role1")
    ∧ parsePairsList ["a=b=c"] = .ok ([("a", RoleRef.name "b=c", "a")], [("a", "b=c")])
    ∧ createrole ⟨true, true, true, true, true, true⟩ ⟨7, [], []⟩ 3 "😀 Role1" [] 5
        = ⟨[], [], [], .error (.valueError (malformedMsg "😀 Role1"))⟩ := by
  refine ⟨?_, ?_, ?_⟩
  · have h := c5_eq_separator_amended.1 "😀 Role1" [] (by decide) (by decide)
    have he : pyStrip "😀 Role1" = "😀 Role1" := rfl
    rwa [he] at h
  · have h := c5_eq_separator_amended.2.1 "a=b=c" [] [] [] (by decide) (by decide) rfl
    have he : (Except.ok
        (([(normalize_emoji_key (pyStrip (splitEq1 (pyStrip "a=b=c")).1),
            parseRoleRef (pyStrip (splitEq1 (pyStrip "a=b=c")).2),
            pyStrip (splitEq1 (pyStrip "a=b=c")).1)],
          [(pyStrip (splitEq1 (pyStrip "a=b=c")).1, pyStrip (splitEq1 (pyStrip "a=b=c")).2)])
          : List (String × RoleRef × String) × List (String × String))
        : Except String _)
        = .ok ([("a", RoleRef.name "b=c", "a")], [("a", "b=c")]) := rfl
    rwa [he] at h
  · have h := c5_eq_separator_amended.2.2 ⟨true, true, true, true, true, true⟩ ⟨7, [], []⟩
      3 "😀 Role1" [] 5 (malformedMsg "😀 Role1") rfl rfl
    exact h

/-! ### Claim C6: the concrete two-pair example -/

/-- C6 counterexample: on the claimed input `"😀=@Role1, 🎮=@Role2"` against
a guild whose roles are named `Role1` (id 10) and `Role2` (id 20), the parse
keeps `@Role1` as an unresolved name (it is neither a mention token nor
numeric), and resolution then fails with the unknown-role error naming
`@Role1` — it does not yield the claimed binding list. -/
theorem c6_at_name_fails_counterexample :
    parse_pairs "😀=@Role1, 🎮=@Role2"
        = .ok ([("😀", RoleRef.name "@Role1", "😀"), ("🎮", RoleRef.name "@Role2", "🎮")],
               [("😀", "@Role1"), ("🎮", "@Role2")])
    ∧ resolve_role_ids [⟨10, "Role1"⟩, ⟨20, "Role2"⟩]
        [("😀", RoleRef.name "@Role1", "😀"), ("🎮", RoleRef.name "@Role2", "🎮")]
        = .error (unknownRoleMsg "@Role1") :=
  ⟨rfl, rfl⟩

/-- C6 (amended): with the role names written without the `@` prefix, the
blob `"😀=Role1, 🎮=Role2"` parsed and resolved against that guild yields
exactly `[("😀", 10, "😀"), ("🎮", 20, "🎮")]` in order — the third
component of each binding is the emoji display text, not the role text. -/
theorem c6_concrete_resolution_amended :
    (parse_pairs "😀=Role1, 🎮=Role2").bind
        (fun pr => resolve_role_ids [⟨10, "Role1"⟩, ⟨20, "Role2"⟩] pr.1)
      = .ok [("😀", 10, "😀"), ("🎮", 20, "🎮")] := rfl

/-! ### Dict-update lemmas -/

theorem mapReplace_find_eq {α : Type} (m : List (String × α)) (a : String) (v : α)
    (hmem : m.any (fun kv => kv.1 == a) = true) :
    (m.map fun kv => if kv.1 == a then (a, v) else kv).find? (fun kv => kv.1 == a)
      = some (a, v) := by
  induction m with
  | nil => simp at hmem
  | cons kv t ih =>
    rw [List.map_cons]
    cases h : (kv.1 == a)
    · rw [if_neg (by simp [h]), List.find?_cons_of_neg _ (by simp [h])]
      exact ih (by simpa [List.any_cons, h] using hmem)
    · have hif : (if (true = true) then (a, v) else kv) = (a, v) := if_pos rfl
      rw [hif]
      exact List.find?_cons_of_pos _ (by simp)

theorem mapReplace_find_ne {α : Type} (m : List (String × α)) (a : String) (v : α)
    (k : String) (hk : a ≠ k) :
    (m.map fun kv => if kv.1 == a then (a, v) else kv).find? (fun kv => kv.1 == k)
      = m.find? (fun kv => kv.1 == k) := by
  induction m with
  | nil => rfl
  | cons kv t ih =>
    rw [List.map_cons]
    cases h : (kv.1 == a)
    · rw [if_neg (by simp [h])]
      cases h2 : (kv.1 == k)
      · rw [List.find?_cons_of_neg _ (by simp [h2]),
            List.find?_cons_of_neg _ (by simp [h2])]
        exact ih
      · simp only [List.find?_cons, h2]
    · have hif : (if (true = true) then (a, v) else kv) = (a, v) := if_pos rfl
      rw [hif]
      have hkv : kv.1 = a := by simpa using h
      have h2 : (kv.1 == k) = false := by
        rw [hkv]
        simpa using hk
      have h3 : ((a, v).1 == k) = false := by simpa using hk
      simp only [List.find?_cons, h2, h3]
      exact ih

theorem dget_dinsert {α : Type} (m : List (String × α)) (a : String) (v : α) (k : String) :
    dget (dinsert m a v) k = if a = k then some v else dget m k := by
  unfold dget dinsert
  cases hmem : m.any (fun kv => kv.1 == a)
  · simp only [Bool.false_eq_true, if_false]
    rw [List.find?_append]
    by_cases hak : a = k
    · subst hak
      have hnone : m.find? (fun kv => kv.1 == a) = none := by
        rw [List.find?_eq_none]
        intro x hx hpx
        have ht : m.any (fun kv => kv.1 == a) = true := List.any_eq_true.mpr ⟨x, hx, hpx⟩
        rw [hmem] at ht
        exact Bool.noConfusion ht
      simp [hnone]
    · have h1 : ((a, v).1 == k) = false := by simp [hak]
      simp [h1, hak]
  · simp only [if_true]
    by_cases hak : a = k
    · subst hak
      rw [mapReplace_find_eq m a v hmem]
      simp
    · rw [mapReplace_find_ne m a v k hak]
      simp [hak]

/-! ### Claim C4: last write wins, all lines rendered in order -/

/-- The spec's last-write-wins reading: the role bound to a key is that of
the last entry in input order carrying the key (the first in reverse
order). -/
def lastBoundRole (items : List (String × Nat × String)) (k : String) : Option Nat :=
  (items.reverse.find? fun it => it.1 == k).map fun it => it.2.1

theorem dget_foldl_dinsert (items : List (String × Nat × String))
    (m : List (String × Nat)) (k : String) :
    dget (items.foldl (fun acc it => dinsert acc it.1 it.2.1) m) k
      = match items.reverse.find? (fun it => it.1 == k) with
        | some it => some it.2.1
        | none => dget m k := by
  induction items generalizing m with
  | nil => rfl
  | cons it rest ih =>
    simp only [List.foldl_cons, List.reverse_cons, List.find?_append]
    rw [ih]
    cases hr : rest.reverse.find? fun x => x.1 == k
    · simp only [Option.none_or]
      rw [List.find?_singleton]
      cases hik : (it.1 == k)
      · simp only [Bool.false_eq_true, if_false]
        rw [dget_dinsert]
        have : ¬ it.1 = k := by simpa using hik
        simp [this]
      · simp only [if_true]
        rw [dget_dinsert]
        have : it.1 = k := by simpa using hik
        simp [this]
    · simp [Option.or]

theorem dget_dictOfItems_lastBoundRole (items : List (String × Nat × String)) (k : String) :
    dget (dictOfItems items) k = lastBoundRole items k := by
  unfold dictOfItems lastBoundRole
  rw [dget_foldl_dinsert]
  cases h : items.reverse.find? fun it => it.1 == k <;> simp [dget]

theorem buildLines_ok_eq (g : Guild) :
    ∀ (items : List (String × Nat × String)) (ls : List String),
      buildLines g items = .ok ls →
      ls = items.map fun it => it.2.2 ++ arrowSep ++ "<@&" ++ Nat.repr it.2.1 ++ ">" := by
  intro items
  induction items with
  | nil =>
    intro ls h
    simp only [buildLines] at h
    cases h
    rfl
  | cons it rest ih =>
    intro ls h
    obtain ⟨ek, rid, er⟩ := it
    cases hr : get_role g rid with
    | none => rw [buildLines, hr] at h; cases h
    | some r =>
      cases hb : buildLines g rest with
      | error e => rw [buildLines, hr, hb] at h; cases h
      | ok ls2 =>
        rw [buildLines, hr, hb] at h
        cases h
        have hid : r.id = rid := by
          unfold get_role at hr
          have := List.find?_some hr
          simpa using this
        simp [roleMention, hid, ih ls2 hb, String.append_assoc]

/-- C4: on a successful `createrole`, the persisted record at the posted
message id maps each emoji key to the role of the last entry with that key
in input order (Python dict last-write-wins), while the rendered body keeps
one line per resolved entry, all entries, in original input order. -/
theorem c4_last_write_wins_full_render :
    ∀ (perms : Perms) (g : Guild) (channelId : Nat) (pairs : String) (store : Store)
      (freshMsgId : Nat) (raw : List (String × RoleRef × String))
      (lbl : List (String × String)) (items : List (String × Nat × String))
      (ls : List String),
      missingPerms perms = [] →
      parse_pairs pairs = .ok (raw, lbl) →
      resolve_role_ids g.roles raw = .ok items →
      buildLines g items = .ok ls →
      dget (createrole perms g channelId pairs store freshMsgId).store (Nat.repr freshMsgId)
          = some ⟨dictOfItems items, g.id, channelId⟩
      ∧ (∀ k, dget (dictOfItems items) k = lastBoundRole items k)
      ∧ (createrole perms g channelId pairs store freshMsgId).posted
          = [items.map fun it => it.2.2 ++ arrowSep ++ "<@&" ++ Nat.repr it.2.1 ++ ">"] := by
  intro perms g ch pairs store mid raw lbl items ls hperm hparse hres hbuild
  have he : ensure_react_permissions perms = .ok () := by
    simp [ensure_react_permissions, hperm]
  have hcr : createrole perms g ch pairs store mid
      = ⟨dinsert store (Nat.repr mid) ⟨dictOfItems items, g.id, ch⟩, [ls],
         (dictOfItems items).map (·.1), .ok mid⟩ := by
    simp [createrole, he, hparse, hres, hbuild]
  refine ⟨?_, fun k => dget_dictOfItems_lastBoundRole items k, ?_⟩
  · rw [hcr]
    show dget (dinsert store (Nat.repr mid) ⟨dictOfItems items, g.id, ch⟩) (Nat.repr mid)
      = some ⟨dictOfItems items, g.id, ch⟩
    rw [dget_dinsert]
    simp
  · rw [hcr]
    show [ls] = _
    rw [buildLines_ok_eq g items ls hbuild]

theorem c4_last_write_wins_full_render_witness :
    dget (createrole ⟨true, true, true, true, true, true⟩ ⟨7, [⟨10, "A"⟩, ⟨20, "B"⟩], []⟩ 3
        "😀=10, 😀=20" [] 5).store (Nat.repr 5)
      = some ⟨dictOfItems [("😀", 10, "😀"), ("😀", 20, "😀")], 7, 3⟩
    ∧ dget (dictOfItems [("😀", 10, "😀"), ("😀", 20, "😀")]) "😀"
      = lastBoundRole [("😀", 10, "😀"), ("😀", 20, "😀")] "😀"
    ∧ (createrole ⟨true, true, true, true, true, true⟩ ⟨7, [⟨10, "A"⟩, ⟨20, "B"⟩], []⟩ 3
        "😀=10, 😀=20" [] 5).posted
      = [["😀" ++ arrowSep ++ "<@&10>", "😀" ++ arrowSep ++ "<@&20>"]] := by
  have h := c4_last_write_wins_full_render ⟨true, true, true, true, true, true⟩
    ⟨7, [⟨10, "A"⟩, ⟨20, "B"⟩], []⟩ 3 "😀=10, 😀=20" [] 5
    [("😀", RoleRef.id 10, "😀"), ("😀", RoleRef.id 20, "😀")]
    [("😀", "10"), ("😀", "20")]
    [("😀", 10, "😀"), ("😀", 20, "😀")]
    ["😀" ++ arrowSep ++ "<@&" ++ Nat.repr 10 ++ ">",
     "😀" ++ arrowSep ++ "<@&" ++ Nat.repr 20 ++ ">"]
    rfl rfl rfl rfl
  exact ⟨h.1, h.2.1 "😀", h.2.2⟩

/-! ### Claim C9: createrole only touches the posted message's key -/

/-- C9: a successful `createrole` that posts message `M` changes the store
only at key `str(M)`: every other key reads the same before and after. -/
theorem c9_store_frame :
    ∀ (perms : Perms) (g : Guild) (channelId : Nat) (pairs : String) (store : Store)
      (freshMsgId M : Nat),
      (createrole perms g channelId pairs store freshMsgId).result = .ok M →
      ∀ K : String, K ≠ Nat.repr M →
        dget (createrole perms g channelId pairs store freshMsgId).store K = dget store K := by
  intro perms g ch pairs store mid M h K hK
  unfold createrole at h ⊢
  cases he : ensure_react_permissions perms with
  | error m => simp [he] at h
  | ok u =>
    cases hp : parse_pairs pairs with
    | error m => simp [he, hp] at h
    | ok pr =>
      obtain ⟨raw, lbl⟩ := pr
      cases hr : resolve_role_ids g.roles raw with
      | error m => simp [he, hp, hr] at h
      | ok items =>
        cases hb : buildLines g items with
        | error m => simp [he, hp, hr, hb] at h
        | ok ls =>
          simp only [he, hp, hr, hb] at h ⊢
          have hM : mid = M := by simpa using h
          subst hM
          rw [dget_dinsert, if_neg fun hh => hK hh.symm]

theorem c9_store_frame_witness :
    dget (createrole ⟨true, true, true, true, true, true⟩ ⟨7, [⟨10, "A"⟩], []⟩ 3 "😀=10"
        [("99", ⟨[("x", 1)], 7, 3⟩)] 5).store "99"
      = dget [("99", (⟨[("x", 1)], 7, 3⟩ : Record))] "99" :=
  c9_store_frame ⟨true, true, true, true, true, true⟩ ⟨7, [⟨10, "A"⟩], []⟩ 3 "😀=10"
    [("99", ⟨[("x", 1)], 7, 3⟩)] 5 5 rfl "99" (by decide)

end YukaBot
